import Mathlib

/-! Verification of the froth-flotation control system against its design
specification.  Shallow embedding of the dual-mode pump/motor controller
(src/control/hardware_controller.py) and of the vision stability scoring
(src/vision/vision_processor.py).  Machine floats are modelled as exact
rationals; a Python method that can raise ValueError is embedded as a
function returning a PyResult that carries the state at exit on both the
normal path and the raising path, so frame conditions on failure are
expressible.  External libraries (lgpio reads, the OpenCV pipeline) enter
as explicit parameters. -/

inductive PumpMode where
  | manual
  | auto
deriving DecidableEq

/-- The motor_states dict of HardwareController: one duty percent per
manual motor (agitator, air, feed). -/
structure MotorStates where
  agitator : ℚ
  air : ℚ
  feed : ℚ
deriving DecidableEq

/-- The mutable fields of HardwareController (hardware_controller.py,
lines 26-32).  gpio_ready embeds is_initialized. -/
structure ControllerState where
  pi_kp : ℚ
  pi_ki : ℚ
  pi_setpoint : ℚ
  max_pump_duty : ℚ
  estop_enabled : Bool
  pi_integral : ℚ
  pi_last_error : ℚ
  pump_mode : PumpMode
  pump_duty : ℚ
  motor_states : MotorStates
  gpio_ready : Bool
  estop_triggered : Bool
deriving DecidableEq

/-- Outcome of a state-mutating controller method: normal return or a
raised ValueError.  Both carry the state at exit, because Python keeps
mutations performed before a raise. -/
inductive PyResult where
  | ok : ControllerState → PyResult
  | valueError : ControllerState → PyResult
deriving DecidableEq

def PyResult.state : PyResult → ControllerState
  | .ok s => s
  | .valueError s => s

def PyResult.raised : PyResult → Bool
  | .ok _ => false
  | .valueError _ => true

/-- HardwareController.__init__ (lines 23-32): PI params and limits from
arguments, integral/last_error 0, mode manual, all duties 0, E-Stop not
triggered. -/
def initController (kp ki sp maxd : ℚ) (ee gr : Bool) : ControllerState :=
  { pi_kp := kp, pi_ki := ki, pi_setpoint := sp, max_pump_duty := maxd,
    estop_enabled := ee, pi_integral := 0, pi_last_error := 0,
    pump_mode := PumpMode.manual, pump_duty := 0,
    motor_states := ⟨0, 0, 0⟩, gpio_ready := gr, estop_triggered := false }

/-- The controller with the default constructor arguments
(kp=0.5, ki=0.05, setpoint=120, max_pump_duty=80, estop_enabled=True)
after a successful GPIO init. -/
def defaultController : ControllerState :=
  initController (1/2) (1/20) 120 80 true true

/-- Embeds _emergency_shutdown (lines 75-82): pump duty, the three motor duties
and the PI integral are zeroed; nothing else is touched. -/
def emergency_shutdown (s : ControllerState) : ControllerState :=
  { s with pump_duty := 0, motor_states := ⟨0, 0, 0⟩, pi_integral := 0 }

/-- check_estop (lines 60-73).  gpioAvailable embeds the module flag
GPIO_AVAILABLE; pinRead embeds lgpio.gpio_read on the E-Stop pin, none
standing for a raised read error (caught: returns False, state intact).
The pin is active LOW: reading 0 records the trigger and executes the
emergency shutdown. -/
def check_estop (gpioAvailable : Bool) (pinRead : Option ℕ) (s : ControllerState) :
    Bool × ControllerState :=
  if !s.estop_enabled || !gpioAvailable || !s.gpio_ready then
    (false, s)
  else
    match pinRead with
    | none => (false, s)
    | some v =>
      let s1 := { s with estop_triggered := v == 0 }
      if v == 0 then (true, emergency_shutdown s1) else (false, s1)

/-- set_pump_mode (lines 101-111): only "auto" and "manual" accepted;
entering auto from another mode resets integral and last_error. -/
def set_pump_mode (mode : String) (s : ControllerState) : PyResult :=
  if mode ≠ "auto" ∧ mode ≠ "manual" then
    .valueError s
  else
    let old := s.pump_mode
    let m := if mode = "auto" then PumpMode.auto else PumpMode.manual
    let s1 := { s with pump_mode := m }
    if m = PumpMode.auto ∧ old ≠ PumpMode.auto then
      .ok { s1 with pi_integral := 0, pi_last_error := 0 }
    else
      .ok s1

/-- Embeds _pi_update (lines 130-142): error, integral accumulation with
anti-windup clamp to [-50,50], PI output clamped to [0,max_pump_duty];
returns the duty and the state with integral and last_error updated. -/
def pi_update (value : ℚ) (s : ControllerState) : ℚ × ControllerState :=
  let error := s.pi_setpoint - value
  let integral := max (-50) (min 50 (s.pi_integral + error))
  let duty := max 0 (min s.max_pump_duty (s.pi_kp * error + s.pi_ki * integral))
  (duty, { s with pi_integral := integral, pi_last_error := error })

/-- set_pump_speed (lines 113-128): no-op while the E-Stop is latched;
manual mode validates the range then applies min(value, max_pump_duty);
auto mode runs one PI step on the measured value. -/
def set_pump_speed (value : ℚ) (s : ControllerState) : PyResult :=
  if s.estop_triggered then
    .ok s
  else if s.pump_mode = PumpMode.manual then
    if ¬ (0 ≤ value ∧ value ≤ 100) then
      .valueError s
    else
      .ok { s with pump_duty := min value s.max_pump_duty }
  else
    .ok { (pi_update value s).2 with pump_duty := (pi_update value s).1 }

/-- Setpoint step of set_pi_parameters (lines 157-161): a negative
setpoint raises; a valid one is stored and resets the integral. -/
def pi_params_sp (sp : Option ℚ) (s : ControllerState) : PyResult :=
  match sp with
  | some p =>
      if p < 0 then .valueError s
      else .ok { s with pi_setpoint := p, pi_integral := 0 }
  | none => .ok s

/-- Ki step of set_pi_parameters (lines 152-155), then the setpoint step. -/
def pi_params_ki (ki sp : Option ℚ) (s : ControllerState) : PyResult :=
  match ki with
  | some i =>
      if i < 0 then .valueError s
      else pi_params_sp sp { s with pi_ki := i }
  | none => pi_params_sp sp s

/-- set_pi_parameters (lines 144-163): kp, ki, setpoint validated and
written one after another, in that order, so a later validation failure
keeps the earlier writes. -/
def set_pi_parameters (kp ki sp : Option ℚ) (s : ControllerState) : PyResult :=
  match kp with
  | some k =>
      if k < 0 then .valueError s
      else pi_params_ki ki sp { s with pi_kp := k }
  | none => pi_params_ki ki sp s

/-- Update of the motor_states dict at a given key. -/
def MotorStates.set (m : MotorStates) (id : String) (v : ℚ) : MotorStates :=
  if id = "agitator" then { m with agitator := v }
  else if id = "air" then { m with air := v }
  else if id = "feed" then { m with feed := v }
  else m

/-- manual_motor_control (lines 165-187): no-op while the E-Stop is
latched; unknown motor id raises; duty outside [0,100] raises; otherwise
the stored motor state is updated (before the hardware write, which is
not rolled back on failure). -/
def manual_motor_control (id : String) (pwm : ℚ) (s : ControllerState) : PyResult :=
  if s.estop_triggered then
    .ok s
  else if ¬ (id = "agitator" ∨ id = "air" ∨ id = "feed") then
    .valueError s
  else if ¬ (0 ≤ pwm ∧ pwm ≤ 100) then
    .valueError s
  else
    .ok { s with motor_states := s.motor_states.set id pwm }

/-- The dict returned by get_status (lines 189-204). -/
structure Status where
  pump_mode : PumpMode
  pump_duty : ℚ
  motors : MotorStates
  pi_kp : ℚ
  pi_ki : ℚ
  pi_setpoint : ℚ
  pi_integral : ℚ
  pi_last_error : ℚ
  estop_triggered : Bool
  ready : Bool
deriving DecidableEq

/-- get_status (lines 189-204): a snapshot of every reported field. -/
def get_status (s : ControllerState) : Status :=
  ⟨s.pump_mode, s.pump_duty, s.motor_states, s.pi_kp, s.pi_ki, s.pi_setpoint,
   s.pi_integral, s.pi_last_error, s.estop_triggered, s.gpio_ready⟩

/-- The anti-windup invariant of the spec: PI integral within [-50,50]. -/
def integral_in_bounds (s : ControllerState) : Prop :=
  -50 ≤ s.pi_integral ∧ s.pi_integral ≤ 50

/-! Vision side: the stability scoring of vision_processor.py.  numpy
means are exact rational means here; a numpy population standard
deviation is characterized relationally by isPopStd (its square is the
population variance), since square roots are not rational in general. -/

/-- Arithmetic mean of a rational list (0 for the empty list, by rational
division by zero). -/
def listMeanQ (xs : List ℚ) : ℚ :=
  xs.sum / xs.length

/-- Population variance of a list, the square of what numpy std returns. -/
def popVariance (xs : List ℚ) : ℚ :=
  (xs.map (fun x => (x - listMeanQ xs) * (x - listMeanQ xs))).sum / xs.length

/-- s is the population standard deviation of xs (what np.std computes):
nonnegative and squaring to the population variance. -/
def isPopStd (xs : List ℚ) (s : ℚ) : Prop :=
  0 ≤ s ∧ s * s = popVariance xs

/-- avg_diameter of _analyze_contours (line 176): mean of the accepted
diameters, 0 when none were accepted. -/
def avg_diameter_of : List ℚ → ℚ
  | [] => 0
  | d :: ds => listMeanQ (d :: ds)

/-- avg_size of analyze_froth (line 195): mean of the accepted areas,
0 when none were accepted. -/
def avg_size_of : List ℚ → ℚ
  | [] => 0
  | a :: areas => listMeanQ (a :: areas)

/-- Size-uniformity term of _calculate_stability (line 223), in the exact
form the code computes it: its first argument is whatever analyze_froth
passes as avg_diameter. -/
def size_uniformity_term (avg_d size_std : ℚ) : ℚ :=
  if 0 < avg_d then 1 / (1 + size_std / avg_d) else 0

/-- Modelled from the spec sentence for C5 only: the size-uniformity
formula with avg_bubble_size (the mean of the areas) in the denominator,
for comparison against the code. -/
def size_uniformity_claim (avg_bubble_size size_std : ℚ) : ℚ :=
  if 0 < avg_bubble_size then 1 / (1 + size_std / avg_bubble_size) else 0

/-- Mean of the bubble-count history, as a rational. -/
def count_mean (history : List ℕ) : ℚ :=
  listMeanQ (history.map (fun n => (n : ℚ)))

/-- Count-consistency term of _calculate_stability (lines 226-231):
computed from the history mean and std only when at least 3 entries are
present, 0.5 otherwise.  count_std is the population std of the history,
supplied relationally. -/
def count_consistency_term (history : List ℕ) (count_std : ℚ) : ℚ :=
  if 3 ≤ history.length then
    if 0 < count_mean history then 1 / (1 + count_std / count_mean history) else 0
  else 1 / 2

/-- Density term of _calculate_stability (lines 234-239): count/50 below
50, 1 between 50 and 200, floored decay above 200. -/
def density_score (count : ℕ) : ℚ :=
  if count < 50 then (count : ℚ) / 50
  else if 200 < count then max (1 / 2) (1 - ((count : ℚ) - 200) / 200)
  else 1

/-- np.clip(x, 0.0, 1.0). -/
def clip01 (x : ℚ) : ℚ :=
  min 1 (max 0 x)

/-- Embeds _calculate_stability (lines 220-242): weighted sum of the three terms,
clipped to [0,1]. -/
def calculate_stability (avg_d size_std : ℚ) (count : ℕ) (history : List ℕ)
    (count_std : ℚ) : ℚ :=
  clip01 (2/5 * size_uniformity_term avg_d size_std
        + 2/5 * count_consistency_term history count_std
        + 1/5 * density_score count)

/-- Append to a deque with maxlen cap: the oldest entries are evicted. -/
def push_history (h : List ℕ) (n cap : ℕ) : List ℕ :=
  let h1 := h ++ [n]
  if cap < h1.length then h1.drop (h1.length - cap) else h1

/-- The stability value produced by analyze_froth (lines 194-201) for
accepted diameters ds and areas: the current count is appended to the
history first, and the value passed as the uniformity denominator is
bubble_data avg_diameter, i.e. the mean of the diameters. -/
def analyze_froth_stability (ds areas : List ℚ) (history : List ℕ)
    (size_std count_std : ℚ) : ℚ :=
  calculate_stability (avg_diameter_of ds) size_std ds.length
    (push_history history ds.length 10) count_std

/-- Modelled from the spec sentence for C5 only: the same stability
computation but with avg_bubble_size (mean of areas) fed to the
size-uniformity term, as the claim asserts the code does. -/
def analyze_froth_stability_claim (ds areas : List ℚ) (history : List ℕ)
    (size_std count_std : ℚ) : ℚ :=
  calculate_stability (avg_size_of areas) size_std ds.length
    (push_history history ds.length 10) count_std

/-! Frame-level guard of process_bubbles. -/

/-- A camera frame, abstracted to its numpy shape; the pixel content is
irrelevant to the guard behaviour under verification. -/
structure Frame where
  rows : ℕ
  cols : ℕ
  channels : ℕ

/-- numpy frame.size: the product of the dimensions. -/
def Frame.size (f : Frame) : ℕ :=
  f.rows * f.cols * f.channels

/-- The dict returned by process_bubbles. -/
structure BubbleResult where
  count : ℕ
  diameters : List ℚ
  areas : List ℚ
  avg_diameter : ℚ
  mask : Option Unit
deriving DecidableEq

/-- The empty result of process_bubbles (lines 107 and 149). -/
def emptyBubbleResult : BubbleResult :=
  ⟨0, [], [], 0, none⟩

/-- process_bubbles (lines 104-149).  The OpenCV pipeline body (lines
110-146) is external library code, embedded as the parameter pipeline;
none models any exception it raises, which the except clause turns into
the empty result.  A None frame or a zero-size frame short-circuits to
the empty result before the pipeline runs. -/
def process_bubbles (pipeline : Frame → Option BubbleResult)
    (frame : Option Frame) : BubbleResult :=
  match frame with
  | none => emptyBubbleResult
  | some f =>
    if f.size = 0 then emptyBubbleResult
    else
      match pipeline f with
      | some r => r
      | none => emptyBubbleResult

/-! Claims. -/

/-- C1: when check_estop reads the E-Stop pin as 0 (with the interlock
enabled, GPIO available and initialized), the emergency shutdown zeroes
the pump duty, all three motor duties and the PI integral, latches
estop_triggered, and leaves pump_mode at its prior value. -/
theorem C1_estop_shutdown (s : ControllerState)
    (hen : s.estop_enabled = true) (hgr : s.gpio_ready = true) :
    (check_estop true (some 0) s).1 = true ∧
    ((check_estop true (some 0) s).2).pump_duty = 0 ∧
    ((check_estop true (some 0) s).2).motor_states = ⟨0, 0, 0⟩ ∧
    ((check_estop true (some 0) s).2).pi_integral = 0 ∧
    ((check_estop true (some 0) s).2).estop_triggered = true ∧
    ((check_estop true (some 0) s).2).pump_mode = s.pump_mode := by
  simp [check_estop, hen, hgr, emergency_shutdown]

/-- Witness for C1 at the default controller. -/
theorem C1_estop_shutdown_witness :
    (check_estop true (some 0) defaultController).1 = true ∧
    ((check_estop true (some 0) defaultController).2).pump_duty = 0 ∧
    ((check_estop true (some 0) defaultController).2).motor_states = ⟨0, 0, 0⟩ ∧
    ((check_estop true (some 0) defaultController).2).pi_integral = 0 ∧
    ((check_estop true (some 0) defaultController).2).estop_triggered = true ∧
    ((check_estop true (some 0) defaultController).2).pump_mode =
      defaultController.pump_mode :=
  C1_estop_shutdown defaultController rfl rfl

/-- C3: in MANUAL mode with the interlock clear, an in-range duty request
is applied as min(value, max_pump_duty); an out-of-range request raises
ValueError with the state (hence the pump duty) unchanged. -/
theorem C3_manual_speed (s : ControllerState) (d : ℚ)
    (hm : s.pump_mode = PumpMode.manual) (he : s.estop_triggered = false) :
    (0 ≤ d ∧ d ≤ 100 →
      set_pump_speed d s = .ok { s with pump_duty := min d s.max_pump_duty }) ∧
    (¬ (0 ≤ d ∧ d ≤ 100) →
      set_pump_speed d s = .valueError s ∧
      ((set_pump_speed d s).state).pump_duty = s.pump_duty) := by
  constructor
  · intro h
    simp [set_pump_speed, he, hm, h]
  · intro h
    simp [set_pump_speed, he, hm, h, PyResult.state]

/-- Witness for C3 at the default controller, duty 30 (applied) and duty
150 (rejected). -/
theorem C3_manual_speed_witness :
    (set_pump_speed 30 defaultController =
      .ok { defaultController with pump_duty := min 30 defaultController.max_pump_duty }) ∧
    (set_pump_speed 150 defaultController = .valueError defaultController) := by
  refine ⟨(C3_manual_speed defaultController 30 rfl rfl).1 (by norm_num), ?_⟩
  exact ((C3_manual_speed defaultController 150 rfl rfl).2 (by norm_num)).1

/-- C4: switching to auto from manual resets integral and last_error to 0;
switching to auto while already in auto changes neither; any mode string
other than auto and manual raises ValueError with the state unchanged. -/
theorem C4_set_pump_mode (s : ControllerState) :
    (s.pump_mode = PumpMode.manual →
      set_pump_mode "auto" s =
        .ok { s with
                pump_mode := PumpMode.auto
                pi_integral := 0
                pi_last_error := 0 }) ∧
    (s.pump_mode = PumpMode.auto →
      set_pump_mode "auto" s = .ok { s with pump_mode := PumpMode.auto } ∧
      ((set_pump_mode "auto" s).state).pi_integral = s.pi_integral ∧
      ((set_pump_mode "auto" s).state).pi_last_error = s.pi_last_error) ∧
    (∀ m : String, m ≠ "auto" → m ≠ "manual" →
      set_pump_mode m s = .valueError s) := by
  refine ⟨?_, ?_, ?_⟩
  · intro hm
    simp [set_pump_mode, hm]
  · intro hm
    refine ⟨by simp [set_pump_mode, hm], ?_, ?_⟩ <;>
      simp [set_pump_mode, hm, PyResult.state]
  · intro m h1 h2
    simp [set_pump_mode, h1, h2]

/-- Witness for C4: the default controller starts in manual; entering
auto resets the PI accumulators, and a bogus mode string is rejected. -/
theorem C4_set_pump_mode_witness :
    (set_pump_mode "auto" defaultController =
      .ok { defaultController with
              pump_mode := PumpMode.auto
              pi_integral := 0
              pi_last_error := 0 }) ∧
    (set_pump_mode "turbo" defaultController = .valueError defaultController) :=
  ⟨(C4_set_pump_mode defaultController).1 rfl,
   (C4_set_pump_mode defaultController).2.2 "turbo" (by decide) (by decide)⟩

/-- C10: while the E-Stop is latched, set_pump_speed and
manual_motor_control return normally for every argument, even invalid
ones, and leave the state untouched: the interlock check precedes all
validation. -/
theorem C10_estop_gates_validation (s : ControllerState)
    (h : s.estop_triggered = true) :
    (∀ v : ℚ, set_pump_speed v s = .ok s) ∧
    (∀ id : String, ∀ pwm : ℚ, manual_motor_control id pwm s = .ok s) := by
  constructor
  · intro v
    simp [set_pump_speed, h]
  · intro id pwm
    simp [manual_motor_control, h]

/-- Witness for C10: with the interlock latched, an out-of-range duty and
an unknown motor id both return normally with no state change. -/
theorem C10_estop_gates_validation_witness :
    (set_pump_speed 500 { defaultController with estop_triggered := true } =
      .ok { defaultController with estop_triggered := true }) ∧
    (manual_motor_control "bogus" 500
        { defaultController with estop_triggered := true } =
      .ok { defaultController with estop_triggered := true }) :=
  ⟨(C10_estop_gates_validation _ rfl).1 500,
   (C10_estop_gates_validation _ rfl).2 "bogus" 500⟩

/-- The anti-windup clamp lands in [-50,50] whatever the accumulated
value. -/
theorem clamp_in_bounds (x : ℚ) :
    -50 ≤ max (-50) (min 50 x) ∧ max (-50) (min 50 x) ≤ 50 :=
  ⟨le_max_left _ _, max_le (by norm_num) (min_le_left _ _)⟩

/-- One set_pump_speed call preserves the integral bound, in every mode
and whether or not the interlock is latched. -/
theorem set_pump_speed_keeps_bounds (v : ℚ) (s : ControllerState)
    (h : integral_in_bounds s) :
    integral_in_bounds ((set_pump_speed v s).state) := by
  unfold integral_in_bounds set_pump_speed pi_update at *
  split_ifs <;> first | exact h | exact clamp_in_bounds _

/-- set_pump_mode preserves the integral bound: it either leaves the
integral alone or zeroes it. -/
theorem set_pump_mode_keeps_bounds (m : String) (s : ControllerState)
    (h : integral_in_bounds s) :
    integral_in_bounds ((set_pump_mode m s).state) := by
  unfold set_pump_mode
  by_cases h1 : m ≠ "auto" ∧ m ≠ "manual"
  · simp only [if_pos h1]
    exact h
  · simp only [if_neg h1]
    by_cases h2 : (if m = "auto" then PumpMode.auto else PumpMode.manual) = PumpMode.auto ∧
        s.pump_mode ≠ PumpMode.auto
    · simp only [if_pos h2]
      exact ⟨by norm_num [PyResult.state], by norm_num [PyResult.state]⟩
    · simp only [if_neg h2]
      exact h

/-- The setpoint step preserves the integral bound: the integral is
either untouched or reset to 0. -/
theorem pi_params_sp_keeps_bounds (sp : Option ℚ) (s : ControllerState)
    (h : integral_in_bounds s) :
    integral_in_bounds ((pi_params_sp sp s).state) := by
  unfold pi_params_sp
  rcases sp with _ | p
  · exact h
  · by_cases hp : p < 0
    · simp only [if_pos hp]
      exact h
    · simp only [if_neg hp]
      exact ⟨by norm_num [PyResult.state], by norm_num [PyResult.state]⟩

/-- The ki step preserves the integral bound. -/
theorem pi_params_ki_keeps_bounds (ki sp : Option ℚ) (s : ControllerState)
    (h : integral_in_bounds s) :
    integral_in_bounds ((pi_params_ki ki sp s).state) := by
  unfold pi_params_ki
  rcases ki with _ | i
  · exact pi_params_sp_keeps_bounds sp s h
  · by_cases hi : i < 0
    · simp only [if_pos hi]
      exact h
    · simp only [if_neg hi]
      exact pi_params_sp_keeps_bounds sp _ h

/-- set_pi_parameters preserves the integral bound on every path: the
integral is either untouched or reset to 0. -/
theorem set_pi_parameters_keeps_bounds (kp ki sp : Option ℚ) (s : ControllerState)
    (h : integral_in_bounds s) :
    integral_in_bounds ((set_pi_parameters kp ki sp s).state) := by
  unfold set_pi_parameters
  rcases kp with _ | k
  · exact pi_params_ki_keeps_bounds ki sp s h
  · by_cases hk : k < 0
    · simp only [if_pos hk]
      exact h
    · simp only [if_neg hk]
      exact pi_params_ki_keeps_bounds ki sp _ h

/-- emergency_shutdown zeroes the integral, hence keeps the bound. -/
theorem emergency_shutdown_keeps_bounds (s : ControllerState) :
    integral_in_bounds (emergency_shutdown s) := by
  unfold integral_in_bounds emergency_shutdown
  norm_num

/-- Folding set_pump_speed over any list of measured values keeps the
integral bound. -/
theorem foldl_speed_keeps_bounds (vals : List ℚ) (s : ControllerState)
    (h : integral_in_bounds s) :
    integral_in_bounds
      (vals.foldl (fun st v => (set_pump_speed v st).state) s) := by
  induction vals generalizing s with
  | nil => exact h
  | cons v vs ih => exact ih _ (set_pump_speed_keeps_bounds v s h)

/-- C2: from a freshly constructed controller switched to AUTO, every
finite sequence of set_pump_speed calls with arbitrary measured values
leaves the PI integral in [-50,50]; moreover the bound is preserved by
set_pump_speed in any mode, by set_pump_mode, by set_pi_parameters and by
the emergency shutdown. -/
theorem C2_pi_integral_bounded (kp ki sp maxd : ℚ) (ee gr : Bool) (vals : List ℚ) :
    integral_in_bounds
      (vals.foldl (fun st v => (set_pump_speed v st).state)
        ((set_pump_mode "auto" (initController kp ki sp maxd ee gr)).state)) ∧
    (∀ s : ControllerState, integral_in_bounds s →
      (∀ v : ℚ, integral_in_bounds ((set_pump_speed v s).state)) ∧
      (∀ m : String, integral_in_bounds ((set_pump_mode m s).state)) ∧
      (∀ a b c : Option ℚ, integral_in_bounds ((set_pi_parameters a b c s).state)) ∧
      integral_in_bounds (emergency_shutdown s)) := by
  constructor
  · apply foldl_speed_keeps_bounds
    apply set_pump_mode_keeps_bounds
    constructor <;> norm_num [initController]
  · intro s hs
    exact ⟨fun v => set_pump_speed_keeps_bounds v s hs,
           fun m => set_pump_mode_keeps_bounds m s hs,
           fun a b c => set_pi_parameters_keeps_bounds a b c s hs,
           emergency_shutdown_keeps_bounds s⟩

/-- Witness for C2 at the default construction and a concrete burst of
measured values, including ones that drive the raw accumulation far
outside the clamp. -/
theorem C2_pi_integral_bounded_witness :
    integral_in_bounds
      ([(0 : ℚ), 0, 0, 1000, -1000].foldl
        (fun st v => (set_pump_speed v st).state)
        ((set_pump_mode "auto" (initController (1/2) (1/20) 120 80 true true)).state)) ∧
    integral_in_bounds (emergency_shutdown defaultController) :=
  ⟨(C2_pi_integral_bounded (1/2) (1/20) 120 80 true true [0, 0, 0, 1000, -1000]).1,
   ((C2_pi_integral_bounded (1/2) (1/20) 120 80 true true []).2 defaultController
     (by constructor <;> norm_num [defaultController, initController,
       integral_in_bounds])).2.2.2⟩

/-- C8: with the interlock clear, setting the air motor to 75 stores 75
(visible through get_status); a following request of 150 raises
ValueError and the stored air state stays 75; an unknown motor id raises
ValueError and changes no motor state. -/
theorem C8_motor_scenario (s : ControllerState) (he : s.estop_triggered = false) :
    (manual_motor_control "air" 75 s =
      .ok { s with motor_states := { s.motor_states with air := 75 } }) ∧
    ((get_status ((manual_motor_control "air" 75 s).state)).motors.air = 75) ∧
    (manual_motor_control "air" 150 ((manual_motor_control "air" 75 s).state) =
      .valueError ((manual_motor_control "air" 75 s).state)) ∧
    ((get_status ((manual_motor_control "air" 150
        ((manual_motor_control "air" 75 s).state)).state)).motors.air = 75) ∧
    (∀ id : String, ∀ v : ℚ, id ≠ "agitator" → id ≠ "air" → id ≠ "feed" →
      manual_motor_control id v s = .valueError s) := by
  have h75 : manual_motor_control "air" 75 s =
      .ok { s with motor_states := { s.motor_states with air := 75 } } := by
    simp [manual_motor_control, he, MotorStates.set]
    norm_num
  have hstate : (manual_motor_control "air" 75 s).state =
      { s with motor_states := { s.motor_states with air := 75 } } := by
    rw [h75]
    rfl
  have h150 : manual_motor_control "air" 150 ((manual_motor_control "air" 75 s).state) =
      .valueError ((manual_motor_control "air" 75 s).state) := by
    rw [hstate]
    simp [manual_motor_control, he, MotorStates.set]
    norm_num
  refine ⟨h75, by rw [hstate]; rfl, h150, by rw [h150, hstate]; rfl, ?_⟩
  intro id v h1 h2 h3
  simp [manual_motor_control, he, h1, h2, h3]

/-- Witness for C8 at the default controller and the unknown id of the
repository's own test suite. -/
theorem C8_motor_scenario_witness :
    (manual_motor_control "air" 75 defaultController =
      .ok { defaultController with
              motor_states := { defaultController.motor_states with air := 75 } }) ∧
    (manual_motor_control "invalid_motor" 50 defaultController =
      .valueError defaultController) :=
  ⟨(C8_motor_scenario defaultController rfl).1,
   (C8_motor_scenario defaultController rfl).2.2.2.2 "invalid_motor" 50
     (by decide) (by decide) (by decide)⟩

/-- C9: process_bubbles on a None frame or a zero-size frame returns the
empty result (count 0, empty lists, avg_diameter 0, no mask) and cannot
raise, whatever the OpenCV pipeline would have done. -/
theorem C9_empty_frame (pipeline : Frame → Option BubbleResult)
    (frame : Option Frame)
    (h : frame = none ∨ ∃ f, frame = some f ∧ f.size = 0) :
    process_bubbles pipeline frame = emptyBubbleResult ∧
    (process_bubbles pipeline frame).count = 0 ∧
    (process_bubbles pipeline frame).diameters = [] ∧
    (process_bubbles pipeline frame).areas = [] ∧
    (process_bubbles pipeline frame).avg_diameter = 0 ∧
    (process_bubbles pipeline frame).mask = none := by
  rcases h with rfl | ⟨f, rfl, hf⟩
  · exact ⟨rfl, rfl, rfl, rfl, rfl, rfl⟩
  · simp [process_bubbles, hf, emptyBubbleResult]

/-- Witness for C9: a 0x640x3 frame (zero rows, hence zero size) under a
pipeline that would have returned a nonempty detection. -/
theorem C9_empty_frame_witness :
    process_bubbles (fun _ => some ⟨1, [3], [7], 3, some ()⟩)
      (some ⟨0, 640, 3⟩) = emptyBubbleResult :=
  (C9_empty_frame (fun _ => some ⟨1, [3], [7], 3, some ()⟩)
    (some ⟨0, 640, 3⟩) (Or.inr ⟨⟨0, 640, 3⟩, rfl, rfl⟩)).1

/-- C5 counterexample: for accepted diameters [1,3] (areas [10,10]), the
population std of the diameters is exactly 1 and the mean of the areas is
10, yet the code computes the uniformity term from the mean of the
DIAMETERS (2), giving 2/3 instead of the 10/11 the claim asserts; the
full stability values differ as well.  (count_std is irrelevant: the
history has one entry.) -/
theorem C5_counterexample :
    isPopStd [(1 : ℚ), 3] 1 ∧
    size_uniformity_term (avg_diameter_of [(1 : ℚ), 3]) 1 ≠
      size_uniformity_claim (avg_size_of [(10 : ℚ), 10]) 1 ∧
    analyze_froth_stability [(1 : ℚ), 3] [(10 : ℚ), 10] [] 1 0 ≠
      analyze_froth_stability_claim [(1 : ℚ), 3] [(10 : ℚ), 10] [] 1 0 := by
  refine ⟨⟨by norm_num, by norm_num [popVariance, listMeanQ]⟩, ?_, ?_⟩
  · norm_num [size_uniformity_term, size_uniformity_claim, avg_diameter_of,
      avg_size_of, listMeanQ]
  · norm_num [analyze_froth_stability, analyze_froth_stability_claim,
      calculate_stability, clip01, size_uniformity_term, count_consistency_term,
      density_score, push_history, count_mean, avg_diameter_of, avg_size_of,
      listMeanQ, min_def, max_def]

/-- C5 amended: the size-uniformity term of the stability computation is
1/(1 + size_std_dev/avg_diameter) when avg_diameter > 0 and 0 otherwise,
where avg_diameter is the arithmetic mean of the accepted observations'
diameters (bubble_data avg_diameter) — not the mean of their areas —
and size_std_dev is the population standard deviation of the diameters. -/
theorem C5_uniformity_from_diameters (ds areas : List ℚ) (history : List ℕ)
    (size_std count_std : ℚ) :
    analyze_froth_stability ds areas history size_std count_std =
      clip01 (2/5 * size_uniformity_term (avg_diameter_of ds) size_std
            + 2/5 * count_consistency_term (push_history history ds.length 10) count_std
            + 1/5 * density_score ds.length) ∧
    (0 < avg_diameter_of ds →
      size_uniformity_term (avg_diameter_of ds) size_std =
        1 / (1 + size_std / avg_diameter_of ds)) ∧
    (¬ 0 < avg_diameter_of ds →
      size_uniformity_term (avg_diameter_of ds) size_std = 0) := by
  refine ⟨rfl, ?_, ?_⟩
  · intro h
    simp [size_uniformity_term, h]
  · intro h
    simp [size_uniformity_term, h]

/-- Witness for the C5 amended theorem on diameters [1,3] with their
population std 1. -/
theorem C5_uniformity_from_diameters_witness :
    size_uniformity_term (avg_diameter_of [(1 : ℚ), 3]) 1 =
      1 / (1 + 1 / avg_diameter_of [(1 : ℚ), 3]) :=
  (C5_uniformity_from_diameters [(1 : ℚ), 3] [(10 : ℚ), 10] [] 1 0).2.1
    (by norm_num [avg_diameter_of, listMeanQ])

/-- C6 counterexample: set_pi_parameters(kp=1, ki=-1) on the default
controller raises ValueError, but pi_kp has already changed from 1/2 to
1 before the failing ki check — the call is not atomic. -/
theorem C6_counterexample :
    set_pi_parameters (some 1) (some (-1)) none defaultController =
      .valueError { defaultController with pi_kp := 1 } ∧
    defaultController.pi_kp ≠ 1 := by
  constructor
  · norm_num [set_pi_parameters, pi_params_ki]
  · norm_num [defaultController, initController]

/-- The setpoint step raises on a negative setpoint with the state at
entry unchanged. -/
theorem pi_params_sp_failure (s : ControllerState) (p : ℚ) (hp : p < 0) :
    pi_params_sp (some p) s = .valueError s := by
  simp [pi_params_sp, hp]

/-- If ki or the setpoint is supplied negative, the ki step raises, and
the state at the raise differs from the entry state at most in pi_ki
(changed only to a validly supplied ki); integral and setpoint are
untouched. -/
theorem pi_params_ki_failure (s : ControllerState) (ki sp : Option ℚ)
    (h : (∃ i, ki = some i ∧ i < 0) ∨ (∃ p, sp = some p ∧ p < 0)) :
    ∃ t, pi_params_ki ki sp s = .valueError t ∧
      t.pi_integral = s.pi_integral ∧ t.pi_setpoint = s.pi_setpoint ∧
      t.pi_last_error = s.pi_last_error ∧ t.pump_duty = s.pump_duty ∧
      t.pump_mode = s.pump_mode ∧ t.motor_states = s.motor_states ∧
      t.pi_kp = s.pi_kp ∧
      (t.pi_ki = s.pi_ki ∨ ∃ i, ki = some i ∧ 0 ≤ i ∧ t.pi_ki = i) := by
  rcases ki with _ | i
  · rcases h with ⟨i, hi, _⟩ | ⟨p, hp, hpneg⟩
    · exact absurd hi (by simp)
    · subst hp
      exact ⟨s, pi_params_sp_failure s p hpneg, rfl, rfl, rfl, rfl, rfl, rfl, rfl,
        Or.inl rfl⟩
  · by_cases hi : i < 0
    · refine ⟨s, ?_, rfl, rfl, rfl, rfl, rfl, rfl, rfl, Or.inl rfl⟩
      simp [pi_params_ki, hi]
    · have hsp : ∃ p, sp = some p ∧ p < 0 := by
        rcases h with ⟨j, hj, hjneg⟩ | hsp
        · cases hj
          exact absurd hjneg hi
        · exact hsp
      rcases hsp with ⟨p, hp, hpneg⟩
      subst hp
      refine ⟨{ s with pi_ki := i }, ?_, rfl, rfl, rfl, rfl, rfl, rfl, rfl,
        Or.inr ⟨i, rfl, not_lt.mp hi, rfl⟩⟩
      simp only [pi_params_ki, if_neg hi]
      exact pi_params_sp_failure _ p hpneg

/-- C6 amended: when any supplied parameter is negative,
set_pi_parameters raises ValueError before writing that parameter, and
the stored integral, setpoint and everything downstream are unchanged;
but parameters validated earlier in the kp, ki, setpoint order that were
supplied with valid values have already been written — validation is
sequential, not atomic. -/
theorem C6_params_failure_frame (s : ControllerState) (kp ki sp : Option ℚ)
    (h : (∃ k, kp = some k ∧ k < 0) ∨ (∃ i, ki = some i ∧ i < 0) ∨
         (∃ p, sp = some p ∧ p < 0)) :
    ∃ t, set_pi_parameters kp ki sp s = .valueError t ∧
      t.pi_integral = s.pi_integral ∧ t.pi_setpoint = s.pi_setpoint ∧
      t.pi_last_error = s.pi_last_error ∧ t.pump_duty = s.pump_duty ∧
      t.pump_mode = s.pump_mode ∧ t.motor_states = s.motor_states ∧
      (t.pi_kp = s.pi_kp ∨ ∃ k, kp = some k ∧ 0 ≤ k ∧ t.pi_kp = k) ∧
      (t.pi_ki = s.pi_ki ∨ ∃ i, ki = some i ∧ 0 ≤ i ∧ t.pi_ki = i) := by
  rcases kp with _ | k
  · have h2 : (∃ i, ki = some i ∧ i < 0) ∨ (∃ p, sp = some p ∧ p < 0) := by
      rcases h with ⟨k, hk, _⟩ | h2
      · exact absurd hk (by simp)
      · exact h2
    obtain ⟨t, ht, h1, h2', h3, h4, h5, h6, h7, h8⟩ := pi_params_ki_failure s ki sp h2
    exact ⟨t, ht, h1, h2', h3, h4, h5, h6, Or.inl h7, h8⟩
  · by_cases hk : k < 0
    · refine ⟨s, ?_, rfl, rfl, rfl, rfl, rfl, rfl, Or.inl rfl, Or.inl rfl⟩
      simp [set_pi_parameters, hk]
    · have h2 : (∃ i, ki = some i ∧ i < 0) ∨ (∃ p, sp = some p ∧ p < 0) := by
        rcases h with ⟨j, hj, hjneg⟩ | h2
        · cases hj
          exact absurd hjneg hk
        · exact h2
      obtain ⟨t, ht, h1, h2', h3, h4, h5, h6, h7, h8⟩ :=
        pi_params_ki_failure { s with pi_kp := k } ki sp h2
      refine ⟨t, ?_, h1, h2', h3, h4, h5, h6,
        Or.inr ⟨k, rfl, not_lt.mp hk, by rw [h7]⟩, h8⟩
      simp only [set_pi_parameters, if_neg hk]
      exact ht

/-- Witness for the C6 amended theorem at kp=1, ki=-1 on the default
controller. -/
theorem C6_params_failure_frame_witness :
    ∃ t, set_pi_parameters (some 1) (some (-1)) none defaultController =
        .valueError t ∧
      t.pi_integral = defaultController.pi_integral ∧
      t.pi_setpoint = defaultController.pi_setpoint ∧
      t.pi_last_error = defaultController.pi_last_error ∧
      t.pump_duty = defaultController.pump_duty ∧
      t.pump_mode = defaultController.pump_mode ∧
      t.motor_states = defaultController.motor_states ∧
      (t.pi_kp = defaultController.pi_kp ∨
        ∃ k, (some (1 : ℚ)) = some k ∧ 0 ≤ k ∧ t.pi_kp = k) ∧
      (t.pi_ki = defaultController.pi_ki ∨
        ∃ i, (some (-1 : ℚ)) = some i ∧ 0 ≤ i ∧ t.pi_ki = i) :=
  C6_params_failure_frame defaultController (some 1) (some (-1)) none
    (Or.inr (Or.inl ⟨-1, rfl, by norm_num⟩))

/-- C7 counterexample: the bubble-count history [0,0,2,2] has 4 entries,
mean 1 and population standard deviation exactly 1, so the computed
count-consistency is 1/(1+1/1) = 0.5 — a history of 3 or more entries
can also yield exactly 0.5. -/
theorem C7_counterexample :
    isPopStd ([0, 0, 2, 2].map (fun n : ℕ => (n : ℚ))) 1 ∧
    3 ≤ ([0, 0, 2, 2] : List ℕ).length ∧
    count_consistency_term [0, 0, 2, 2] 1 = 1 / 2 := by
  refine ⟨⟨by norm_num, by norm_num [popVariance, listMeanQ]⟩, by norm_num, ?_⟩
  norm_num [count_consistency_term, count_mean, listMeanQ]

/-- C7 amended: the count-consistency term is 0.5 for every history
shorter than 3 entries (the insufficient-data sentinel); for histories of
3 or more entries it is the computed value 1/(1+stddev/mean) (0 when the
mean is 0), which can coincide with 0.5. -/
theorem C7_count_consistency_short (history : List ℕ) (count_std : ℚ)
    (h : history.length < 3) :
    count_consistency_term history count_std = 1 / 2 := by
  unfold count_consistency_term
  rw [if_neg (by omega)]

/-- Witness for the C7 amended theorem on a 2-entry history. -/
theorem C7_count_consistency_short_witness :
    count_consistency_term [7, 9] 5 = 1 / 2 :=
  C7_count_consistency_short [7, 9] 5 (by decide)
